import Mathlib

/-!
Shallow embedding of the ecg-firestore form application.

The three source modules are modelled as pure state-transition functions
returning a new state together with a list of observable effects (toasts,
remote document-database calls, persistence writes, owner callbacks).
Asynchronous results (remote writes, file reads) are passed in as explicit
oracle arguments; `JSON.parse` / `JSON.stringify` are abstract function
parameters.
-/

namespace EcgFirestore

/-- The in-memory medical record of `src/pages/Index.tsx`. -/
structure MedicalRecord where
  ecg : String
  laudo : String
  descricao : String
deriving DecidableEq

/-- The connection profile of `FirestoreConfig.tsx` / `Index.tsx`. -/
structure FirestoreCredentials where
  projectId : String
  apiKey : String
  authDomain : String
  storageBucket : String
  messagingSenderId : String
  appId : String
  collectionName : String
deriving DecidableEq

/-- A Firestore field value, distinguishing the representations the code
uses: plain strings, booleans, `new Date().toISOString()` and `new Date()`
(both taken at an abstract instant `t : Nat`). -/
inductive FireValue where
  | str (s : String)
  | boolean (b : Bool)
  | isoDate (t : Nat)
  | date (t : Nat)
deriving DecidableEq

/-- Observable effects of the page and the configuration panel. -/
inductive Effect where
  | toast (title descr variant : String)
  | addDoc (coll : String) (fields : List (String × FireValue))
  | deleteDoc (id : String)
  | credentialsSaved (creds : FirestoreCredentials)
deriving DecidableEq

/-- Remote calls among the effects (`addDoc` / `deleteDoc`). -/
def Effect.isRemote : Effect → Bool
  | .addDoc _ _ => true
  | .deleteDoc _ => true
  | _ => false

/-- State of the `Index` page component. -/
structure IndexState where
  activeTab : String
  isConnected : Bool
  isSubmitting : Bool
  record : MedicalRecord
deriving DecidableEq

/-- The reset value of the form (`setRecord({ecg:'',laudo:'',descricao:''})`). -/
def emptyRecord : MedicalRecord := ⟨"", "", ""⟩

/-- The document written by `handleSubmit` (Index.tsx lines 101-107):
the three record fields plus `timestamp` and `created_at`, both taken at
the submission instant `now`. -/
def submitDoc (r : MedicalRecord) (now : Nat) : List (String × FireValue) :=
  [("ecg", FireValue.str r.ecg),
   ("laudo", FireValue.str r.laudo),
   ("descricao", FireValue.str r.descricao),
   ("timestamp", FireValue.isoDate now),
   ("created_at", FireValue.date now)]

/-- `Index` mount effect (lines 44-49): `isConnected` becomes true iff
`localStorage.getItem('firestore_credentials')` is truthy, i.e. present and
non-empty (an empty string is falsy in JavaScript). -/
def mountIsConnected : Option String → Bool
  | none => false
  | some s => !(s = "")

/-- `handleSubmit` of Index.tsx (lines 56-133). `parse` abstracts
`JSON.parse` (`none` = throws), `storage` is the value under the fixed key
`firestore_credentials`, `now` the submission instant, and `writeResult`
the outcome of the `addDoc` call (`Except.ok docId` or a thrown error). -/
def handleSubmit (parse : String → Option FirestoreCredentials)
    (s : IndexState) (storage : Option String) (now : Nat)
    (writeResult : Except Unit String) : IndexState × List Effect :=
  if s.isConnected = false then
    ({ s with activeTab := "config" },
     [Effect.toast "Conexão necessária"
        "Configure as credenciais do Firestore na aba Configurações"
        "destructive"])
  else if s.record.ecg = "" ∨ s.record.laudo = "" ∨ s.record.descricao = "" then
    (s, [Effect.toast "Campos obrigatórios"
           "Por favor, preencha todos os campos antes de enviar"
           "destructive"])
  else
    -- setIsSubmitting(true); try { ... } finally { setIsSubmitting(false) }
    match storage with
    | none =>
        ({ s with isSubmitting := false },
         [Effect.toast "Erro ao enviar"
            "Ocorreu um erro ao salvar no Firestore. Verifique sua conexão e credenciais."
            "destructive"])
    | some saved =>
        if saved = "" then
          -- `if (!savedCredentials) throw ...`: empty string is falsy
          ({ s with isSubmitting := false },
           [Effect.toast "Erro ao enviar"
              "Ocorreu um erro ao salvar no Firestore. Verifique sua conexão e credenciais."
              "destructive"])
        else
          match parse saved with
          | none =>
              -- JSON.parse throws, caught by the same catch block
              ({ s with isSubmitting := false },
               [Effect.toast "Erro ao enviar"
                  "Ocorreu um erro ao salvar no Firestore. Verifique sua conexão e credenciais."
                  "destructive"])
          | some creds =>
              match writeResult with
              | Except.ok docId =>
                  ({ s with record := emptyRecord, isSubmitting := false },
                   [Effect.addDoc creds.collectionName (submitDoc s.record now),
                    Effect.toast "Dados enviados com sucesso!"
                      ("Registro médico salvo no Firestore com ID: " ++ docId)
                      "default"])
              | Except.error _ =>
                  ({ s with isSubmitting := false },
                   [Effect.addDoc creds.collectionName (submitDoc s.record now),
                    Effect.toast "Erro ao enviar"
                      "Ocorreu um erro ao salvar no Firestore. Verifique sua conexão e credenciais."
                      "destructive"])

/-! ## FirestoreConfig.tsx -/

/-- State of the `FirestoreConfig` component. -/
structure ConfigState where
  isLoading : Bool
  credentials : FirestoreCredentials
deriving DecidableEq

/-- Initial credential values (FirestoreConfig.tsx lines 33-41): all fields
empty except `collectionName`, which defaults to `"medical_records"`. -/
def defaultCredentials : FirestoreCredentials :=
  ⟨"", "", "", "", "", "", "medical_records"⟩

/-- `credentials[field]` indexing used by the validation loop. -/
def credentialField (c : FirestoreCredentials) : String → String
  | "projectId" => c.projectId
  | "apiKey" => c.apiKey
  | "authDomain" => c.authDomain
  | "storageBucket" => c.storageBucket
  | "messagingSenderId" => c.messagingSenderId
  | "appId" => c.appId
  | "collectionName" => c.collectionName
  | _ => ""

/-- The `requiredFields` array of `handleSave` (line 97). -/
def requiredFields : List String :=
  ["projectId", "apiKey", "authDomain", "collectionName"]

/-- `requiredFields.filter(field => !credentials[field])` (line 98);
an empty string is falsy in JavaScript. -/
def missingFields (c : FirestoreCredentials) : List String :=
  requiredFields.filter (fun f => credentialField c f = "")

/-- The throwaway marker document written by `testConnection`
(lines 79-83). -/
def testDocFields (now : Nat) : List (String × FireValue) :=
  [("test", FireValue.boolean true),
   ("timestamp", FireValue.isoDate now),
   ("connectionTest", FireValue.str "success")]

/-- `testConnection` of FirestoreConfig.tsx (lines 63-93): write one test
document, then delete it; any failure is rethrown. `addResult` and
`delResult` are the outcomes of the two remote calls. -/
def testConnection (c : FirestoreCredentials) (now : Nat)
    (addResult : Except Unit String) (delResult : Except Unit Unit) :
    Except Unit Unit × List Effect :=
  match addResult with
  | Except.error e =>
      (Except.error e, [Effect.addDoc c.collectionName (testDocFields now)])
  | Except.ok docId =>
      match delResult with
      | Except.error e =>
          (Except.error e,
           [Effect.addDoc c.collectionName (testDocFields now),
            Effect.deleteDoc docId])
      | Except.ok _ =>
          (Except.ok (),
           [Effect.addDoc c.collectionName (testDocFields now),
            Effect.deleteDoc docId])

/-- Result of one `handleSave` invocation: new component state, new value
under the fixed local-storage key, and the effects that fired. -/
structure SaveOutcome where
  state : ConfigState
  storage : Option String
  effects : List Effect
deriving DecidableEq

/-- `handleSave` of FirestoreConfig.tsx (lines 95-135). `stringify`
abstracts `JSON.stringify`; `storage` is the prior value under the fixed
key `firestore_credentials`. -/
def handleSave (stringify : FirestoreCredentials → String)
    (st : ConfigState) (storage : Option String) (now : Nat)
    (addResult : Except Unit String) (delResult : Except Unit Unit) :
    SaveOutcome :=
  if (missingFields st.credentials).length > 0 then
    ⟨st, storage,
     [Effect.toast "Campos obrigatórios"
        ("Por favor, preencha: " ++
          String.intercalate ", " (missingFields st.credentials))
        "destructive"]⟩
  else
    -- setIsLoading(true); try { ... } finally { setIsLoading(false) }
    match testConnection st.credentials now addResult delResult with
    | (Except.ok _, fx) =>
        ⟨{ st with isLoading := false },
         some (stringify st.credentials),
         fx ++ [Effect.credentialsSaved st.credentials,
                Effect.toast "Conexão bem-sucedida"
                  "Credenciais salvas e conexão com Firestore testada com sucesso!"
                  "default"]⟩
    | (Except.error _, fx) =>
        ⟨{ st with isLoading := false }, storage,
         fx ++ [Effect.toast "Erro de conexão"
                  "Não foi possível conectar ao Firestore. Verifique suas credenciais."
                  "destructive"]⟩

/-- `FirestoreConfig` mount effect (lines 44-54): if a truthy value is
stored, try to `JSON.parse` it; on success adopt it, on a caught parse
error (or no/falsy value) keep the defaults. -/
def configMount (parse : String → Option FirestoreCredentials)
    (storage : Option String) : FirestoreCredentials :=
  match storage with
  | none => defaultCredentials
  | some s =>
      if s = "" then defaultCredentials
      else
        match parse s with
        | some c => c
        | none => defaultCredentials

/-! ## ImageUpload widget (the unnamed component file) -/

/-- A file-like input: its declared media type and its byte content. -/
structure UploadFile where
  type : String
  content : List Nat
deriving DecidableEq

/-- The standard base64 alphabet used by `FileReader.readAsDataURL`. -/
def base64Alphabet : List Char :=
  ['A', 'B', 'C', 'D', 'E', 'F', 'G', 'H', 'I', 'J', 'K', 'L', 'M',
   'N', 'O', 'P', 'Q', 'R', 'S', 'T', 'U', 'V', 'W', 'X', 'Y', 'Z',
   'a', 'b', 'c', 'd', 'e', 'f', 'g', 'h', 'i', 'j', 'k', 'l', 'm',
   'n', 'o', 'p', 'q', 'r', 's', 't', 'u', 'v', 'w', 'x', 'y', 'z',
   '0', '1', '2', '3', '4', '5', '6', '7', '8', '9', '+', '/']

/-- The alphabet character for a sextet. -/
def base64Char (n : Nat) : Char := base64Alphabet.getD n 'A'

/-- The sextet for an alphabet character (64 for a char not in the
alphabet, `'='` included). -/
def base64Val (c : Char) : Nat := base64Alphabet.indexOf c

/-- Standard base64 encoding of a byte list, three bytes per four output
characters, `'='`-padded. -/
def base64EncodeChunks : List Nat → List Char
  | [] => []
  | [b0] =>
      [base64Char (b0 / 4), base64Char (b0 % 4 * 16), '=', '=']
  | [b0, b1] =>
      [base64Char (b0 / 4), base64Char (b0 % 4 * 16 + b1 / 16),
       base64Char (b1 % 16 * 4), '=']
  | b0 :: b1 :: b2 :: rest =>
      base64Char (b0 / 4) :: base64Char (b0 % 4 * 16 + b1 / 16) ::
      base64Char (b1 % 16 * 4 + b2 / 64) :: base64Char (b2 % 64) ::
      base64EncodeChunks rest

/-- Standard base64 decoding, the inverse direction of the round-trip law. -/
def base64DecodeChunks : List Char → List Nat
  | c0 :: c1 :: c2 :: c3 :: rest =>
      if c2 = '=' then
        [base64Val c0 * 4 + base64Val c1 / 16]
      else if c3 = '=' then
        [base64Val c0 * 4 + base64Val c1 / 16,
         base64Val c1 % 16 * 16 + base64Val c2 / 4]
      else
        (base64Val c0 * 4 + base64Val c1 / 16) ::
        (base64Val c1 % 16 * 16 + base64Val c2 / 4) ::
        (base64Val c2 % 4 * 64 + base64Val c3) ::
        base64DecodeChunks rest
  | _ => []

/-- `FileReader.readAsDataURL`, the encoding produced by `convertToBase64`
(widget lines 22-35): a data URL embedding the media type and the base64
payload. -/
def readAsDataURL (f : UploadFile) : String :=
  "data:" ++ f.type ++ ";base64," ++ String.mk (base64EncodeChunks f.content)

/-- Everything after the first comma (the payload locator of a data URL). -/
def afterComma : List Char → List Char
  | [] => []
  | c :: rest => if c = ',' then rest else afterComma rest

/-- Decoding a data URL back to bytes: base64-decode what follows the
first comma. -/
def dataURLDecode (s : String) : List Nat :=
  base64DecodeChunks (afterComma s.data)

/-- State of one `ImageUpload` widget; `value` is the owner-held encoded
string the widget edits through `onChange`. -/
structure UploadState where
  isDragging : Bool
  isLoading : Bool
  value : String
deriving DecidableEq

/-- Observable effects of the upload widget. -/
inductive UploadEffect where
  | alert (msg : String)
  | changed (v : String)
deriving DecidableEq

/-- JavaScript's `file.type.startsWith('image/')`: the media type begins
with the image indicator. -/
def startsWithImage (t : String) : Bool :=
  "image/".data.isPrefixOf t.data

/-- `handleFileUpload` (widget lines 37-53): reject non-image media types
with an alert and no state change; otherwise read the file
(`readResult` is the `FileReader` outcome), hand the data URL to the owner
on success, alert on failure, clearing the busy flag either way. -/
def handleFileUpload (st : UploadState) (f : UploadFile)
    (readResult : Except Unit Unit) : UploadState × List UploadEffect :=
  if startsWithImage f.type = false then
    (st, [UploadEffect.alert "Por favor, selecione apenas arquivos de imagem."])
  else
    -- setIsLoading(true); try { onChange(await convert) } finally { setIsLoading(false) }
    match readResult with
    | Except.ok _ =>
        ({ st with isLoading := false, value := readAsDataURL f },
         [UploadEffect.changed (readAsDataURL f)])
    | Except.error _ =>
        ({ st with isLoading := false },
         [UploadEffect.alert "Erro ao processar a imagem. Tente novamente."])

/-- `handleDrop` (widget lines 55-63): clear the hover state and feed the
first dropped file, if any, to `handleFileUpload`. No busy-flag guard. -/
def handleDrop (st : UploadState) (files : List UploadFile)
    (readResult : Except Unit Unit) : UploadState × List UploadEffect :=
  match files with
  | [] => ({ st with isDragging := false }, [])
  | f :: _ => handleFileUpload { st with isDragging := false } f readResult

/-- `handleFileSelect` (widget lines 75-80): feed the first selected file,
if any, to `handleFileUpload`. -/
def handleFileSelect (st : UploadState) (files : List UploadFile)
    (readResult : Except Unit Unit) : UploadState × List UploadEffect :=
  match files with
  | [] => (st, [])
  | f :: _ => handleFileUpload st f readResult

/-- A file-picker selection event as the rendered DOM delivers it: the
input element carries `disabled={isLoading}`, so while the busy flag is
set no change event reaches `handleFileSelect`. -/
def fileSelectEvent (st : UploadState) (files : List UploadFile)
    (readResult : Except Unit Unit) : UploadState × List UploadEffect :=
  if st.isLoading then (st, []) else handleFileSelect st files readResult

/-- A drop event as the rendered DOM delivers it: the drop target is the
card body with no `disabled` mechanism, so `handleDrop` always runs. -/
def dropEvent (st : UploadState) (files : List UploadFile)
    (readResult : Except Unit Unit) : UploadState × List UploadEffect :=
  handleDrop st files readResult

/-! ## Base64 round-trip lemmas -/

theorem base64Char_fin_ne_pad : ∀ n : Fin 64, base64Char n.val ≠ '=' := by
  decide

theorem base64Val_fin_char : ∀ n : Fin 64, base64Val (base64Char n.val) = n.val := by
  decide

theorem base64Char_ne_pad {n : Nat} (h : n < 64) : base64Char n ≠ '=' :=
  base64Char_fin_ne_pad ⟨n, h⟩

theorem base64Val_char {n : Nat} (h : n < 64) : base64Val (base64Char n) = n :=
  base64Val_fin_char ⟨n, h⟩

/-- Base64 decoding inverts base64 encoding on byte lists. -/
theorem base64_decode_encode :
    ∀ bs : List Nat, (∀ b ∈ bs, b < 256) →
      base64DecodeChunks (base64EncodeChunks bs) = bs
  | [], _ => rfl
  | [b0], h => by
      have hb0 : b0 < 256 := h b0 (by simp)
      simp only [base64EncodeChunks, base64DecodeChunks]
      rw [if_pos trivial, base64Val_char (by omega), base64Val_char (by omega)]
      simp only [List.cons.injEq, and_true]
      omega
  | [b0, b1], h => by
      have hb0 : b0 < 256 := h b0 (by simp)
      have hb1 : b1 < 256 := h b1 (by simp)
      simp only [base64EncodeChunks, base64DecodeChunks]
      rw [if_neg (base64Char_ne_pad (by omega)), if_pos trivial,
        base64Val_char (by omega), base64Val_char (by omega),
        base64Val_char (by omega)]
      simp only [List.cons.injEq, and_true]
      exact ⟨by omega, by omega⟩
  | b0 :: b1 :: b2 :: rest, h => by
      have hb0 : b0 < 256 := h b0 (by simp)
      have hb1 : b1 < 256 := h b1 (by simp)
      have hb2 : b2 < 256 := h b2 (by simp)
      have ih := base64_decode_encode rest (fun b hb => h b (by simp [hb]))
      cases rest with
      | nil =>
          simp only [base64EncodeChunks, base64DecodeChunks]
          rw [if_neg (base64Char_ne_pad (by omega)),
            if_neg (base64Char_ne_pad (by omega)),
            base64Val_char (by omega), base64Val_char (by omega),
            base64Val_char (by omega), base64Val_char (by omega)]
          simp only [List.cons.injEq, and_true]
          exact ⟨by omega, by omega, by omega⟩
      | cons b3 rest' =>
          simp only [base64EncodeChunks] at ih ⊢
          simp only [base64DecodeChunks]
          rw [if_neg (base64Char_ne_pad (by omega)),
            if_neg (base64Char_ne_pad (by omega)),
            base64Val_char (by omega), base64Val_char (by omega),
            base64Val_char (by omega), base64Val_char (by omega)]
          simp only [List.cons.injEq]
          exact ⟨by omega, by omega, by omega, ih⟩

theorem afterComma_append (pre rest : List Char) (h : ',' ∉ pre) :
    afterComma (pre ++ ',' :: rest) = rest := by
  induction pre with
  | nil => simp [afterComma]
  | cons c cs ih =>
      have hc : ¬ c = ',' := by
        intro e
        exact h (by rw [e]; exact List.mem_cons_self _ _)
      rw [List.cons_append]
      simp only [afterComma]
      rw [if_neg hc]
      exact ih (fun m => h (List.mem_cons_of_mem _ m))

/-! ## Claim theorems -/

/-- Claim C3: for every input file whose bytes are bytes (< 256) and whose
declared media type contains no comma, if the attachment encoder produces
its data-URL encoding (media type plus base64 payload), then decoding that
encoding reproduces the original byte content exactly. -/
theorem convertToBase64_roundTrip (f : UploadFile)
    (hb : ∀ b ∈ f.content, b < 256) (ht : ',' ∉ f.type.data) :
    dataURLDecode (readAsDataURL f) = f.content := by
  have hmem : ',' ∉ ("data:".data ++ f.type.data ++
      [';', 'b', 'a', 's', 'e', '6', '4']) := by
    intro hm
    rcases List.mem_append.mp hm with hm1 | h3
    · rcases List.mem_append.mp hm1 with h1 | h2
      · revert h1; decide
      · exact ht h2
    · revert h3; decide
  unfold dataURLDecode readAsDataURL
  have hdata :
      ("data:" ++ f.type ++ ";base64," ++
        String.mk (base64EncodeChunks f.content)).data =
      ("data:".data ++ f.type.data ++ [';', 'b', 'a', 's', 'e', '6', '4']) ++
        ',' :: base64EncodeChunks f.content := by
    show "data:".data ++ f.type.data ++ ";base64,".data ++
      base64EncodeChunks f.content = _
    simp [List.append_assoc]
  rw [hdata, afterComma_append _ _ hmem, base64_decode_encode _ hb]

/-- Witness for C3 at a concrete file. -/
theorem convertToBase64_roundTrip_witness :
    ',' ∉ "image/png".data ∧
    dataURLDecode (readAsDataURL ⟨"image/png", [137, 80, 78, 71, 0, 255]⟩) =
      [137, 80, 78, 71, 0, 255] :=
  ⟨by decide,
   convertToBase64_roundTrip ⟨"image/png", [137, 80, 78, 71, 0, 255]⟩
     (by decide) (by decide)⟩

/-- Claim C1: once a submission reaches the remote write (connected, all
three record fields filled, stored credentials readable), a failing write
leaves the in-memory record exactly as it was and reports the generic
submission-failure notice, while a successful write resets the record to
all-empty and reports the new document's identifier. -/
theorem handleSubmit_atomic (parse : String → Option FirestoreCredentials)
    (s : IndexState) (saved : String) (creds : FirestoreCredentials)
    (now : Nat)
    (hc : s.isConnected = true)
    (hfull : ¬(s.record.ecg = "" ∨ s.record.laudo = "" ∨ s.record.descricao = ""))
    (hne : ¬ saved = "")
    (hp : parse saved = some creds) :
    (∀ e : Unit,
      handleSubmit parse s (some saved) now (Except.error e) =
        ({ s with isSubmitting := false },
         [Effect.addDoc creds.collectionName (submitDoc s.record now),
          Effect.toast "Erro ao enviar"
            "Ocorreu um erro ao salvar no Firestore. Verifique sua conexão e credenciais."
            "destructive"])) ∧
    (∀ docId : String,
      handleSubmit parse s (some saved) now (Except.ok docId) =
        ({ s with record := emptyRecord, isSubmitting := false },
         [Effect.addDoc creds.collectionName (submitDoc s.record now),
          Effect.toast "Dados enviados com sucesso!"
            ("Registro médico salvo no Firestore com ID: " ++ docId)
            "default"])) := by
  constructor <;> intro x <;> simp [handleSubmit, hc, hfull, hne, hp]

/-- Witness for C1 at a concrete state, credentials and write outcomes. -/
theorem handleSubmit_atomic_witness :
    handleSubmit (fun _ => some ⟨"p", "k", "d", "", "", "", "col"⟩)
        ⟨"data", true, false, ⟨"A", "B", "D"⟩⟩ (some "x") 5 (Except.error ()) =
      (⟨"data", true, false, ⟨"A", "B", "D"⟩⟩,
       [Effect.addDoc "col" (submitDoc ⟨"A", "B", "D"⟩ 5),
        Effect.toast "Erro ao enviar"
          "Ocorreu um erro ao salvar no Firestore. Verifique sua conexão e credenciais."
          "destructive"]) ∧
    handleSubmit (fun _ => some ⟨"p", "k", "d", "", "", "", "col"⟩)
        ⟨"data", true, false, ⟨"A", "B", "D"⟩⟩ (some "x") 5 (Except.ok "id1") =
      (⟨"data", true, false, emptyRecord⟩,
       [Effect.addDoc "col" (submitDoc ⟨"A", "B", "D"⟩ 5),
        Effect.toast "Dados enviados com sucesso!"
          ("Registro médico salvo no Firestore com ID: " ++ "id1")
          "default"]) :=
  ⟨(handleSubmit_atomic (fun _ => some ⟨"p", "k", "d", "", "", "", "col"⟩)
      ⟨"data", true, false, ⟨"A", "B", "D"⟩⟩ "x"
      ⟨"p", "k", "d", "", "", "", "col"⟩ 5
      rfl (by decide) (by decide) rfl).1 (),
   (handleSubmit_atomic (fun _ => some ⟨"p", "k", "d", "", "", "", "col"⟩)
      ⟨"data", true, false, ⟨"A", "B", "D"⟩⟩ "x"
      ⟨"p", "k", "d", "", "", "", "col"⟩ 5
      rfl (by decide) (by decide) rfl).2 "id1"⟩

/-- Claim C4: with nothing persisted at mount (so `isConnected` is the
mount value for empty storage, and no save since), every submission fails
with the connection-required notice, makes zero remote calls, redirects
the active tab to the configuration panel, and leaves the record
unchanged. -/
theorem handleSubmit_requiresConnection
    (parse : String → Option FirestoreCredentials) (t : String) (b : Bool)
    (r : MedicalRecord) (storage : Option String) (now : Nat)
    (wr : Except Unit String) :
    handleSubmit parse ⟨t, mountIsConnected none, b, r⟩ storage now wr =
      (⟨"config", mountIsConnected none, b, r⟩,
       [Effect.toast "Conexão necessária"
          "Configure as credenciais do Firestore na aba Configurações"
          "destructive"]) ∧
    (handleSubmit parse ⟨t, mountIsConnected none, b, r⟩ storage now
        wr).2.filter Effect.isRemote = [] := by
  constructor
  · simp [handleSubmit, mountIsConnected]
  · simp [handleSubmit, mountIsConnected, Effect.isRemote]

/-- Claim C5: when connected, any record with at least one empty field is
refused with the missing-fields notice, no remote call is made, and the
state is left unchanged. -/
theorem handleSubmit_missingFields
    (parse : String → Option FirestoreCredentials) (s : IndexState)
    (storage : Option String) (now : Nat) (wr : Except Unit String)
    (hc : s.isConnected = true)
    (he : s.record.ecg = "" ∨ s.record.laudo = "" ∨ s.record.descricao = "") :
    handleSubmit parse s storage now wr =
      (s, [Effect.toast "Campos obrigatórios"
             "Por favor, preencha todos os campos antes de enviar"
             "destructive"]) ∧
    (handleSubmit parse s storage now wr).2.filter Effect.isRemote = [] := by
  unfold handleSubmit
  rw [hc]
  rw [if_neg (by simp), if_pos he]
  exact ⟨rfl, rfl⟩

/-- The refusal outcome a missing-field submission must produce, at the
record `r`. -/
def missingFieldsOutcome (r : MedicalRecord) : IndexState × List Effect :=
  (⟨"data", true, false, r⟩,
   [Effect.toast "Campos obrigatórios"
      "Por favor, preencha todos os campos antes de enviar"
      "destructive"])

/-- Witness for C5: all seven non-full field combinations are refused. -/
theorem handleSubmit_missingFields_witness :
    handleSubmit (fun _ => none) ⟨"data", true, false, ⟨"", "", ""⟩⟩ none 0
        (Except.error ()) = missingFieldsOutcome ⟨"", "", ""⟩ ∧
    handleSubmit (fun _ => none) ⟨"data", true, false, ⟨"", "", "d"⟩⟩ none 0
        (Except.error ()) = missingFieldsOutcome ⟨"", "", "d"⟩ ∧
    handleSubmit (fun _ => none) ⟨"data", true, false, ⟨"", "l", ""⟩⟩ none 0
        (Except.error ()) = missingFieldsOutcome ⟨"", "l", ""⟩ ∧
    handleSubmit (fun _ => none) ⟨"data", true, false, ⟨"", "l", "d"⟩⟩ none 0
        (Except.error ()) = missingFieldsOutcome ⟨"", "l", "d"⟩ ∧
    handleSubmit (fun _ => none) ⟨"data", true, false, ⟨"e", "", ""⟩⟩ none 0
        (Except.error ()) = missingFieldsOutcome ⟨"e", "", ""⟩ ∧
    handleSubmit (fun _ => none) ⟨"data", true, false, ⟨"e", "", "d"⟩⟩ none 0
        (Except.error ()) = missingFieldsOutcome ⟨"e", "", "d"⟩ ∧
    handleSubmit (fun _ => none) ⟨"data", true, false, ⟨"e", "l", ""⟩⟩ none 0
        (Except.error ()) = missingFieldsOutcome ⟨"e", "l", ""⟩ :=
  ⟨(handleSubmit_missingFields (fun _ => none) ⟨"data", true, false, ⟨"", "", ""⟩⟩
      none 0 (Except.error ()) rfl (by decide)).1,
   (handleSubmit_missingFields (fun _ => none) ⟨"data", true, false, ⟨"", "", "d"⟩⟩
      none 0 (Except.error ()) rfl (by decide)).1,
   (handleSubmit_missingFields (fun _ => none) ⟨"data", true, false, ⟨"", "l", ""⟩⟩
      none 0 (Except.error ()) rfl (by decide)).1,
   (handleSubmit_missingFields (fun _ => none) ⟨"data", true, false, ⟨"", "l", "d"⟩⟩
      none 0 (Except.error ()) rfl (by decide)).1,
   (handleSubmit_missingFields (fun _ => none) ⟨"data", true, false, ⟨"e", "", ""⟩⟩
      none 0 (Except.error ()) rfl (by decide)).1,
   (handleSubmit_missingFields (fun _ => none) ⟨"data", true, false, ⟨"e", "", "d"⟩⟩
      none 0 (Except.error ()) rfl (by decide)).1,
   (handleSubmit_missingFields (fun _ => none) ⟨"data", true, false, ⟨"e", "l", ""⟩⟩
      none 0 (Except.error ()) rfl (by decide)).1⟩

/-- The concrete record of the spec's submission scenario. -/
def scenarioRecord : MedicalRecord :=
  ⟨"data:image/png;base64,XX", "data:image/png;base64,YY", "ok"⟩

/-- Claim C7: submitting the scenario record with a valid persisted
profile invokes the remote write exactly once, on the configured
collection, with the three record fields plus the submission timestamp,
and on success the in-memory record resets to all-empty. -/
theorem handleSubmit_scenario (parse : String → Option FirestoreCredentials)
    (saved : String) (creds : FirestoreCredentials) (t : String) (b : Bool)
    (now : Nat) (docId : String)
    (hne : ¬ saved = "") (hp : parse saved = some creds) :
    (handleSubmit parse ⟨t, true, b, scenarioRecord⟩ (some saved) now
        (Except.ok docId)).2.filter Effect.isRemote =
      [Effect.addDoc creds.collectionName
        [("ecg", FireValue.str "data:image/png;base64,XX"),
         ("laudo", FireValue.str "data:image/png;base64,YY"),
         ("descricao", FireValue.str "ok"),
         ("timestamp", FireValue.isoDate now),
         ("created_at", FireValue.date now)]] ∧
    (handleSubmit parse ⟨t, true, b, scenarioRecord⟩ (some saved) now
        (Except.ok docId)).1.record = emptyRecord := by
  constructor <;>
    simp [handleSubmit, hne, hp, scenarioRecord, submitDoc, Effect.isRemote]

/-- Witness for C7 at concrete credentials and identifiers. -/
theorem handleSubmit_scenario_witness :
    (handleSubmit (fun _ => some ⟨"p", "k", "d", "", "", "", "recs"⟩)
        ⟨"data", true, false, scenarioRecord⟩ (some "x") 7
        (Except.ok "id9")).2.filter Effect.isRemote =
      [Effect.addDoc "recs"
        [("ecg", FireValue.str "data:image/png;base64,XX"),
         ("laudo", FireValue.str "data:image/png;base64,YY"),
         ("descricao", FireValue.str "ok"),
         ("timestamp", FireValue.isoDate 7),
         ("created_at", FireValue.date 7)]] ∧
    (handleSubmit (fun _ => some ⟨"p", "k", "d", "", "", "", "recs"⟩)
        ⟨"data", true, false, scenarioRecord⟩ (some "x") 7
        (Except.ok "id9")).1.record = emptyRecord :=
  handleSubmit_scenario (fun _ => some ⟨"p", "k", "d", "", "", "", "recs"⟩)
    "x" ⟨"p", "k", "d", "", "", "", "recs"⟩ "data" false 7 "id9"
    (by decide) rfl

/-- Claim C2: if the live round-trip to the remote service fails,
`handleSave` leaves the stored value under the fixed key unchanged and
never notifies the owner that a profile is active; and for any round-trip
outcome whatsoever, a change of the stored value implies the round-trip
succeeded. -/
theorem handleSave_noPersistOnFailure
    (stringify : FirestoreCredentials → String) (st : ConfigState)
    (storage : Option String) (now : Nat)
    (addResult : Except Unit String) (delResult : Except Unit Unit) (e : Unit)
    (hfail : (testConnection st.credentials now addResult delResult).1 =
      Except.error e) :
    (handleSave stringify st storage now addResult delResult).storage =
      storage ∧
    (∀ c : FirestoreCredentials,
      Effect.credentialsSaved c ∉
        (handleSave stringify st storage now addResult delResult).effects) ∧
    (∀ (a : Except Unit String) (d : Except Unit Unit),
      (handleSave stringify st storage now a d).storage ≠ storage →
        (testConnection st.credentials now a d).1 = Except.ok ()) := by
  refine ⟨?_, ?_, ?_⟩
  · by_cases hv : (missingFields st.credentials).length > 0
    · simp [handleSave, hv]
    · cases addResult with
      | error ea => simp [handleSave, testConnection, hv]
      | ok id =>
          cases delResult with
          | error ed => simp [handleSave, testConnection, hv]
          | ok u => simp [testConnection] at hfail
  · intro c
    by_cases hv : (missingFields st.credentials).length > 0
    · simp [handleSave, hv]
    · cases addResult with
      | error ea => simp [handleSave, testConnection, hv]
      | ok id =>
          cases delResult with
          | error ed => simp [handleSave, testConnection, hv]
          | ok u => simp [testConnection] at hfail
  · intro a d hne
    by_cases hv : (missingFields st.credentials).length > 0
    · exact absurd (by simp [handleSave, hv]) hne
    · cases a with
      | error ea => exact absurd (by simp [handleSave, testConnection, hv]) hne
      | ok id =>
          cases d with
          | error ed =>
              exact absurd (by simp [handleSave, testConnection, hv]) hne
          | ok u => simp [testConnection]

/-- Witness for C2 at concrete credentials and a failing write. -/
theorem handleSave_noPersistOnFailure_witness :
    (handleSave (fun _ => "{}") ⟨false, ⟨"p", "k", "d", "", "", "", "c"⟩⟩
        (some "old") 3 (Except.error ()) (Except.ok ())).storage =
      some "old" ∧
    Effect.credentialsSaved ⟨"p", "k", "d", "", "", "", "c"⟩ ∉
      (handleSave (fun _ => "{}") ⟨false, ⟨"p", "k", "d", "", "", "", "c"⟩⟩
        (some "old") 3 (Except.error ()) (Except.ok ())).effects :=
  ⟨(handleSave_noPersistOnFailure (fun _ => "{}")
      ⟨false, ⟨"p", "k", "d", "", "", "", "c"⟩⟩ (some "old") 3
      (Except.error ()) (Except.ok ()) () rfl).1,
   (handleSave_noPersistOnFailure (fun _ => "{}")
      ⟨false, ⟨"p", "k", "d", "", "", "", "c"⟩⟩ (some "old") 3
      (Except.error ()) (Except.ok ()) () rfl).2.1
     ⟨"p", "k", "d", "", "", "", "c"⟩⟩

/-- Claim C6: exactly the four fields projectId, apiKey, authDomain and
collectionName gate validation; when any is empty, `handleSave` reports a
missing-required-fields notice listing exactly the missing ones, persists
nothing, and makes no remote call. -/
theorem handleSave_missingRequired
    (stringify : FirestoreCredentials → String) (st : ConfigState)
    (storage : Option String) (now : Nat)
    (addResult : Except Unit String) (delResult : Except Unit Unit)
    (h : (missingFields st.credentials).length > 0) :
    requiredFields = ["projectId", "apiKey", "authDomain", "collectionName"] ∧
    handleSave stringify st storage now addResult delResult =
      ⟨st, storage,
       [Effect.toast "Campos obrigatórios"
          ("Por favor, preencha: " ++
            String.intercalate ", " (missingFields st.credentials))
          "destructive"]⟩ ∧
    (handleSave stringify st storage now addResult
        delResult).effects.filter Effect.isRemote = [] := by
  refine ⟨rfl, ?_, ?_⟩
  · unfold handleSave
    rw [if_pos h]
  · unfold handleSave
    rw [if_pos h]
    rfl

/-- Witness for C6 with projectId and authDomain empty. -/
theorem handleSave_missingRequired_witness :
    requiredFields = ["projectId", "apiKey", "authDomain", "collectionName"] ∧
    handleSave (fun _ => "{}") ⟨false, ⟨"", "k", "", "", "", "", "medical_records"⟩⟩
        none 0 (Except.ok "t") (Except.ok ()) =
      ⟨⟨false, ⟨"", "k", "", "", "", "", "medical_records"⟩⟩, none,
       [Effect.toast "Campos obrigatórios"
          ("Por favor, preencha: " ++
            String.intercalate ", "
              (missingFields ⟨"", "k", "", "", "", "", "medical_records"⟩))
          "destructive"]⟩ ∧
    (handleSave (fun _ => "{}")
        ⟨false, ⟨"", "k", "", "", "", "", "medical_records"⟩⟩
        none 0 (Except.ok "t") (Except.ok ())).effects.filter
      Effect.isRemote = [] :=
  handleSave_missingRequired (fun _ => "{}")
    ⟨false, ⟨"", "k", "", "", "", "", "medical_records"⟩⟩ none 0
    (Except.ok "t") (Except.ok ()) (by decide)

/-- Counterexample to C8: with the busy flag set (`isLoading = true`), a
drop of an image file still runs `handleFileUpload` — the encode completes
and fires its change notification — so a second encode can be started by
drag-and-drop while one is in flight. -/
theorem dropWhileBusy_counterexample :
    (⟨false, true, "old"⟩ : UploadState).isLoading = true ∧
    (dropEvent ⟨false, true, "old"⟩ [⟨"image/png", [1, 2, 3]⟩]
        (Except.ok ())).2 =
      [UploadEffect.changed "data:image/png;base64,AQID"] := by
  exact ⟨rfl, by decide⟩

/-- Claim C8 as amended: while an encode is in flight the widget reports
busy and the file-picker input is disabled, so no second encode can start
from the picker; the drop path, however, is not guarded by the busy flag —
a drop is handed to `handleFileUpload` unconditionally. -/
theorem uploadBusy_amended (st : UploadState) (files : List UploadFile)
    (r : Except Unit Unit) (h : st.isLoading = true) :
    fileSelectEvent st files r = (st, []) ∧
    ∀ (f : UploadFile) (rest : List UploadFile),
      dropEvent st (f :: rest) r =
        handleFileUpload { st with isDragging := false } f r := by
  refine ⟨?_, fun f rest => rfl⟩
  unfold fileSelectEvent
  rw [h]
  rfl

/-- Witness for the amended C8 at a concrete busy state. -/
theorem uploadBusy_amended_witness :
    fileSelectEvent ⟨false, true, "v"⟩ [⟨"image/png", [1]⟩] (Except.ok ()) =
      (⟨false, true, "v"⟩, []) ∧
    dropEvent ⟨false, true, "v"⟩ [⟨"image/png", [1]⟩] (Except.ok ()) =
      handleFileUpload ⟨false, true, "v"⟩ ⟨"image/png", [1]⟩ (Except.ok ()) :=
  ⟨(uploadBusy_amended ⟨false, true, "v"⟩ [⟨"image/png", [1]⟩]
      (Except.ok ()) rfl).1,
   (uploadBusy_amended ⟨false, true, "v"⟩ [⟨"image/png", [1]⟩]
      (Except.ok ()) rfl).2 ⟨"image/png", [1]⟩ []⟩

/-- Claim C9: a file whose declared media type does not start with
`image/` is rejected with the user-visible message, no change notification
fires, and the widget state (including the encoded value) is unchanged. -/
theorem handleFileUpload_rejectsNonImage (st : UploadState) (f : UploadFile)
    (r : Except Unit Unit) (h : startsWithImage f.type = false) :
    handleFileUpload st f r =
      (st, [UploadEffect.alert "Por favor, selecione apenas arquivos de imagem."]) ∧
    ∀ v : String, UploadEffect.changed v ∉ (handleFileUpload st f r).2 := by
  unfold handleFileUpload
  rw [if_pos h]
  exact ⟨rfl, by simp⟩

/-- Witness for C9 at a PDF file. -/
theorem handleFileUpload_rejectsNonImage_witness :
    handleFileUpload ⟨false, false, "keep"⟩ ⟨"application/pdf", [1, 2]⟩
        (Except.ok ()) =
      (⟨false, false, "keep"⟩,
       [UploadEffect.alert "Por favor, selecione apenas arquivos de imagem."]) ∧
    UploadEffect.changed "keep" ∉
      (handleFileUpload ⟨false, false, "keep"⟩ ⟨"application/pdf", [1, 2]⟩
        (Except.ok ())).2 :=
  ⟨(handleFileUpload_rejectsNonImage ⟨false, false, "keep"⟩
      ⟨"application/pdf", [1, 2]⟩ (Except.ok ()) (by decide)).1,
   (handleFileUpload_rejectsNonImage ⟨false, false, "keep"⟩
      ⟨"application/pdf", [1, 2]⟩ (Except.ok ()) (by decide)).2 "keep"⟩

/-- Counterexample to C10: for the stored value `""` (present under the
key but not parseable JSON), the configuration panel keeps its defaults,
yet the page shell does *not* show the connected indicator — the mount
check tests JavaScript truthiness, and the empty string is falsy, so
presence of the key alone does not suffice. -/
theorem connectedIndicator_counterexample :
    configMount (fun _ => none) (some "") = defaultCredentials ∧
    mountIsConnected (some "") = false := by
  exact ⟨rfl, rfl⟩

/-- Claim C10 as amended: for any stored value that is non-empty and not
parseable, the configuration panel catches the parse failure and keeps its
defaults (collection name `"medical_records"`, every other field empty),
and the page shell shows the connected indicator, since it tests only the
value's truthiness, never its validity; an empty-string value is treated
as absent. -/
theorem configMount_keepsDefaults
    (parse : String → Option FirestoreCredentials) (str : String)
    (hp : parse str = none) (hne : ¬ str = "") :
    configMount parse (some str) = defaultCredentials ∧
    mountIsConnected (some str) = true ∧
    defaultCredentials.collectionName = "medical_records" ∧
    defaultCredentials.projectId = "" ∧
    defaultCredentials.apiKey = "" ∧
    defaultCredentials.authDomain = "" ∧
    defaultCredentials.storageBucket = "" ∧
    defaultCredentials.messagingSenderId = "" ∧
    defaultCredentials.appId = "" := by
  refine ⟨?_, ?_, rfl, rfl, rfl, rfl, rfl, rfl, rfl⟩
  · simp [configMount, hp, hne]
  · simp [mountIsConnected, hne]

/-- Witness for the amended C10 at a concrete unparseable value. -/
theorem configMount_keepsDefaults_witness :
    configMount (fun _ => none) (some "not json") = defaultCredentials ∧
    mountIsConnected (some "not json") = true ∧
    defaultCredentials.collectionName = "medical_records" ∧
    defaultCredentials.projectId = "" ∧
    defaultCredentials.apiKey = "" ∧
    defaultCredentials.authDomain = "" ∧
    defaultCredentials.storageBucket = "" ∧
    defaultCredentials.messagingSenderId = "" ∧
    defaultCredentials.appId = "" :=
  configMount_keepsDefaults (fun _ => none) "not json" rfl (by decide)

end EcgFirestore
